import Mathlib

/-!
Shallow embedding of the Crumbl cookie demand dashboard (`crumbl_app.py`).

The embedding covers the three logical components of the app:

* the data loader `load_data` (rename `sales` to `units_sold`, or synthesize
  the column with `np.random.randint(50, 200)` values);
* the feature encoder inside `make_prediction` (a one-row pandas dataframe
  initialized to zero over the feature columns of the model, with the holiday flag,
  the social-mention count and the three one-hot categorical indicators
  assigned, then reordered to the schema);
* the recommendation arithmetic (`change_pct`, batch and staffing estimates,
  and the threshold-selected action bundle) together with the prediction
  cycle triggered by the button, whose guard is `if prediction:`.

A one-row pandas dataframe is modelled as an association list from column
names to values: assignment to an existing column replaces its value (at every
occurrence of the name), assignment to a fresh column appends it on the right,
and `frame[schema]` re-reads the columns in schema order.  Python numeric
values are modelled as exact rationals (for the model output) and integers
(for the encoded features).  The recommendation arithmetic is modelled at two
levels: an exact-rational idealization (`pydiv`, `change_pct`, `evaluate`),
faithful whenever the historical average is nonzero, and a model of the
numpy float64 semantics of the division at line 172 (`NpFloat`, `npdiv`,
`np_change_pct`), which never raises — division by zero yields a signed
infinity (or nan) that then flows through the threshold comparisons.
-/

/-- A user selection from the sidebar widgets: one flavor, one weather
condition, one location, the holiday checkbox and the social-mention slider. -/
structure Selection where
  flavor : String
  weather : String
  location : String
  is_holiday : Bool
  social_mentions : Int
  deriving Repr, DecidableEq

/-- Column names of a one-row dataframe, in column order. -/
def dfKeys {α : Type} (df : List (String × α)) : List String :=
  df.map Prod.fst

/-- Read a column of a one-row dataframe: the first pair whose name matches. -/
def getCol {α : Type} : List (String × α) → String → Option α
  | [], _ => none
  | p :: rest, n => if p.1 = n then some p.2 else getCol rest n

/-- Assign `frame[n] = v` on a one-row dataframe: replace the value at every
column named `n` when present, otherwise append a new column on the right. -/
def setCol {α : Type} (df : List (String × α)) (n : String) (v : α) :
    List (String × α) :=
  if n ∈ dfKeys df then df.map (fun p => if p.1 = n then (n, v) else p)
  else df ++ [(n, v)]

/-- The guarded assignment pattern `if n in frame.columns: frame[n] = v`. -/
def setColIf {α : Type} (df : List (String × α)) (n : String) (v : α) :
    List (String × α) :=
  if n ∈ dfKeys df then setCol df n v else df

/-- The zero-initialized one-row dataframe
`pd.DataFrame(0, index=[0], columns=feature_columns)`. -/
def initDf (schema : List String) : List (String × Int) :=
  schema.map (fun c => (c, 0))

/-- Re-read the dataframe in schema order (`input_data[feature_columns]`),
returning the row as a flat vector. -/
def selectCols (schema : List String) (df : List (String × Int)) : List Int :=
  schema.map (fun c => (getCol df c).getD 0)

/-- The derived weather indicator name, `f"weather_{weather_selected}"`. -/
def weatherCol (sel : Selection) : String := "weather_" ++ sel.weather

/-- The derived flavor indicator name, `f"flavor_{flavor_selected}"`. -/
def flavorCol (sel : Selection) : String := "flavor_" ++ sel.flavor

/-- The derived location indicator name, `f"location_{location_selected}"`. -/
def locationCol (sel : Selection) : String := "location_" ++ sel.location

/-- The holiday flag as an integer, `int(is_holiday)`. -/
def holidayVal (sel : Selection) : Int := if sel.is_holiday then 1 else 0

/-- The dataframe built by `make_prediction` before the final reordering:
zeros over the schema, then the holiday flag, the social-mention count and the
three guarded one-hot assignments, in source order. -/
def encodeDf (sel : Selection) (schema : List String) : List (String × Int) :=
  let d0 := initDf schema
  let d1 := setCol d0 "holiday" (holidayVal sel)
  let d2 := setCol d1 "social_media_mentions" sel.social_mentions
  let d3 := setColIf d2 (weatherCol sel) 1
  let d4 := setColIf d3 (flavorCol sel) 1
  setColIf d4 (locationCol sel) 1

/-- The feature vector handed to the model: the encoded dataframe re-read in
schema order. -/
def encode (sel : Selection) (schema : List String) : List Int :=
  selectCols schema (encodeDf sel schema)

theorem getCol_eq_none {α : Type} (df : List (String × α)) (n : String)
    (h : n ∉ dfKeys df) : getCol df n = none := by
  induction df with
  | nil => rfl
  | cons p rest ih =>
    simp only [dfKeys, List.map_cons, List.mem_cons, not_or] at h
    have hp : ¬p.1 = n := fun he => h.1 he.symm
    simp only [getCol, if_neg hp]
    exact ih h.2

theorem getCol_append {α : Type} (df₁ df₂ : List (String × α)) (n : String) :
    getCol (df₁ ++ df₂) n =
      match getCol df₁ n with
      | some v => some v
      | none => getCol df₂ n := by
  induction df₁ with
  | nil => rfl
  | cons p rest ih =>
    by_cases h : p.1 = n
    · simp [getCol, h]
    · simp [getCol, h, ih]

theorem getCol_mapReplace {α : Type} (df : List (String × α)) (n : String)
    (v : α) (c : String) :
    getCol (df.map (fun p => if p.1 = n then (n, v) else p)) c =
      if c = n then (if n ∈ dfKeys df then some v else none)
      else getCol df c := by
  induction df with
  | nil => simp [getCol, dfKeys]
  | cons p rest ih =>
    simp only [List.map_cons, getCol, dfKeys, List.mem_cons] at ih ⊢
    by_cases h : p.1 = n
    · by_cases hc : c = n
      · simp [h, hc]
      · have hnc : ¬n = c := fun he => hc he.symm
        have h3 : ¬p.1 = c := fun he => hc (h.symm.trans he).symm
        simp [h, hc, hnc, h3, ih]
    · by_cases hc : c = n
      · have h2 : ¬p.1 = c := fun he => h (he.trans hc)
        have h4 : ¬n = p.1 := fun he => h he.symm
        rw [hc] at ih
        simp [h, h2, hc, ih]
        by_cases hm : n ∈ List.map Prod.fst rest
        · rw [if_pos hm, if_pos (Or.inr hm)]
        · rw [if_neg hm, if_neg (fun hor => hor.elim h4 hm)]
      · simp [h, hc, ih]

theorem getCol_setCol {α : Type} (df : List (String × α)) (n : String) (v : α)
    (c : String) :
    getCol (setCol df n v) c = if c = n then some v else getCol df c := by
  unfold setCol
  by_cases hm : n ∈ dfKeys df
  · rw [if_pos hm, getCol_mapReplace, if_pos hm]
  · rw [if_neg hm, getCol_append]
    by_cases hc : c = n
    · subst hc
      rw [getCol_eq_none df c hm]
      simp [getCol]
    · simp only [if_neg hc, getCol, if_neg (fun he : n = c => hc he.symm)]
      cases getCol df c <;> rfl

theorem getCol_setColIf {α : Type} (df : List (String × α)) (n : String)
    (v : α) (c : String) :
    getCol (setColIf df n v) c =
      if c = n ∧ n ∈ dfKeys df then some v else getCol df c := by
  unfold setColIf
  by_cases hm : n ∈ dfKeys df
  · rw [if_pos hm, getCol_setCol]
    by_cases hc : c = n <;> simp [hc, hm]
  · rw [if_neg hm]
    simp [hm]

theorem mem_dfKeys_setCol {α : Type} (df : List (String × α)) (n : String)
    (v : α) (x : String) :
    x ∈ dfKeys (setCol df n v) ↔ x ∈ dfKeys df ∨ x = n := by
  unfold setCol
  by_cases hm : n ∈ dfKeys df
  · rw [if_pos hm]
    simp only [dfKeys, List.map_map, List.mem_map, Function.comp] at hm ⊢
    constructor
    · rintro ⟨p, hp, hpx⟩
      by_cases h : p.1 = n
      · rw [if_pos h] at hpx
        exact Or.inr hpx.symm
      · rw [if_neg h] at hpx
        exact Or.inl ⟨p, hp, hpx⟩
    · rintro (⟨p, hp, hpx⟩ | hx)
      · by_cases h : p.1 = n
        · exact ⟨p, hp, by rw [if_pos h]; exact h ▸ hpx⟩
        · exact ⟨p, hp, by rw [if_neg h]; exact hpx⟩
      · obtain ⟨p, hp, hpx⟩ := hm
        exact ⟨p, hp, by rw [if_pos hpx]; exact hx.symm⟩
  · rw [if_neg hm]
    simp [dfKeys]

theorem mem_dfKeys_setColIf {α : Type} (df : List (String × α)) (n : String)
    (v : α) (x : String) :
    x ∈ dfKeys (setColIf df n v) ↔ x ∈ dfKeys df := by
  unfold setColIf
  by_cases hm : n ∈ dfKeys df
  · rw [if_pos hm, mem_dfKeys_setCol]
    constructor
    · intro hx
      rcases hx with hx | hx
      · exact hx
      · exact hx ▸ hm
    · exact Or.inl
  · rw [if_neg hm]

theorem dfKeys_initDf (schema : List String) :
    dfKeys (initDf schema) = schema := by
  induction schema with
  | nil => rfl
  | cons s rest ih =>
    simp only [dfKeys, initDf, List.map_cons] at ih ⊢
    rw [ih]

theorem getCol_initDf (schema : List String) (c : String) :
    getCol (initDf schema) c = if c ∈ schema then some 0 else none := by
  induction schema with
  | nil => simp [initDf, getCol]
  | cons s rest ih =>
    simp only [initDf, List.map_cons, getCol, List.mem_cons] at ih ⊢
    by_cases h : s = c
    · simp [h]
    · have h2 : ¬c = s := fun he => h he.symm
      rw [if_neg h, ih]
      simp [h2]

theorem str_head_ne (s t : String) (c d : Char) (hc : s.data.head? = some c)
    (hd : t.data.head? = some d) (hcd : c ≠ d) : s ≠ t := by
  intro h
  rw [h, hd] at hc
  exact hcd (Option.some.inj hc).symm

theorem weatherCol_ne_holiday (sel : Selection) : weatherCol sel ≠ "holiday" :=
  str_head_ne _ _ 'w' 'h' rfl rfl (by decide)

theorem weatherCol_ne_social (sel : Selection) :
    weatherCol sel ≠ "social_media_mentions" :=
  str_head_ne _ _ 'w' 's' rfl rfl (by decide)

theorem flavorCol_ne_holiday (sel : Selection) : flavorCol sel ≠ "holiday" :=
  str_head_ne _ _ 'f' 'h' rfl rfl (by decide)

theorem flavorCol_ne_social (sel : Selection) :
    flavorCol sel ≠ "social_media_mentions" :=
  str_head_ne _ _ 'f' 's' rfl rfl (by decide)

theorem locationCol_ne_holiday (sel : Selection) : locationCol sel ≠ "holiday" :=
  str_head_ne _ _ 'l' 'h' rfl rfl (by decide)

theorem locationCol_ne_social (sel : Selection) :
    locationCol sel ≠ "social_media_mentions" :=
  str_head_ne _ _ 'l' 's' rfl rfl (by decide)

theorem getCol_encodeDf (sel : Selection) (schema : List String) (c : String) :
    getCol (encodeDf sel schema) c =
      if c = locationCol sel ∧ locationCol sel ∈ schema then some 1
      else if c = flavorCol sel ∧ flavorCol sel ∈ schema then some 1
      else if c = weatherCol sel ∧ weatherCol sel ∈ schema then some 1
      else if c = "social_media_mentions" then some sel.social_mentions
      else if c = "holiday" then some (holidayVal sel)
      else if c ∈ schema then some 0 else none := by
  simp only [encodeDf, getCol_setColIf, getCol_setCol, mem_dfKeys_setColIf,
    mem_dfKeys_setCol, dfKeys_initDf, getCol_initDf,
    weatherCol_ne_holiday sel, flavorCol_ne_holiday sel,
    locationCol_ne_holiday sel, weatherCol_ne_social sel,
    flavorCol_ne_social sel, locationCol_ne_social sel,
    ne_eq, or_false, false_or]

/-- The entry the specification expects at schema column `c`: 1 at the matched
weather, flavor and location indicators, `int(is_holiday)` at `holiday`, the
mention count at `social_media_mentions`, 0 everywhere else. -/
def expectedEntry (sel : Selection) (c : String) : Int :=
  if c = weatherCol sel then 1
  else if c = flavorCol sel then 1
  else if c = locationCol sel then 1
  else if c = "holiday" then holidayVal sel
  else if c = "social_media_mentions" then sel.social_mentions
  else 0

/-- Claim C1: for every schema containing all five derived column names, the
encoder returns a vector indexed in exactly the order of the schema, with entry 1
at the matched weather, flavor and location indicator columns, the 0/1 holiday
flag at `holiday`, the mention count at `social_media_mentions`, and 0 at
every other position. -/
theorem crumbl_C1 (sel : Selection) (schema : List String)
    (hw : weatherCol sel ∈ schema) (hf : flavorCol sel ∈ schema)
    (hl : locationCol sel ∈ schema) (hh : "holiday" ∈ schema)
    (hs : "social_media_mentions" ∈ schema) :
    encode sel schema = schema.map (expectedEntry sel) := by
  unfold encode selectCols
  refine List.map_congr_left ?_
  intro c hc
  rw [getCol_encodeDf]
  unfold expectedEntry
  by_cases h1 : c = weatherCol sel <;> by_cases h2 : c = flavorCol sel <;>
    by_cases h3 : c = locationCol sel <;> by_cases h4 : c = "holiday" <;>
    by_cases h5 : c = "social_media_mentions" <;>
    simp_all [weatherCol_ne_holiday sel, flavorCol_ne_holiday sel,
      locationCol_ne_holiday sel, weatherCol_ne_social sel,
      flavorCol_ne_social sel, locationCol_ne_social sel]

/-- The encoding pipeline with the holiday assignment ignored, for comparison
with the full encoder when `holiday` is not a schema column. -/
def encodeDfSkipHoliday (sel : Selection) (schema : List String) :
    List (String × Int) :=
  let d0 := initDf schema
  let d2 := setCol d0 "social_media_mentions" sel.social_mentions
  let d3 := setColIf d2 (weatherCol sel) 1
  let d4 := setColIf d3 (flavorCol sel) 1
  setColIf d4 (locationCol sel) 1

/-- Vector of `encodeDfSkipHoliday` in schema order. -/
def encodeSkipHoliday (sel : Selection) (schema : List String) : List Int :=
  selectCols schema (encodeDfSkipHoliday sel schema)

/-- The encoding pipeline with the social-mention assignment ignored, for
comparison with the full encoder when `social_media_mentions` is not a schema
column. -/
def encodeDfSkipSocial (sel : Selection) (schema : List String) :
    List (String × Int) :=
  let d0 := initDf schema
  let d1 := setCol d0 "holiday" (holidayVal sel)
  let d3 := setColIf d1 (weatherCol sel) 1
  let d4 := setColIf d3 (flavorCol sel) 1
  setColIf d4 (locationCol sel) 1

/-- Vector of `encodeDfSkipSocial` in schema order. -/
def encodeSkipSocial (sel : Selection) (schema : List String) : List Int :=
  selectCols schema (encodeDfSkipSocial sel schema)

/-- The encoding pipeline with the weather indicator step ignored. -/
def encodeDfSkipWeather (sel : Selection) (schema : List String) :
    List (String × Int) :=
  let d0 := initDf schema
  let d1 := setCol d0 "holiday" (holidayVal sel)
  let d2 := setCol d1 "social_media_mentions" sel.social_mentions
  let d4 := setColIf d2 (flavorCol sel) 1
  setColIf d4 (locationCol sel) 1

/-- Vector of `encodeDfSkipWeather` in schema order. -/
def encodeSkipWeather (sel : Selection) (schema : List String) : List Int :=
  selectCols schema (encodeDfSkipWeather sel schema)

/-- The encoding pipeline with the flavor indicator step ignored. -/
def encodeDfSkipFlavor (sel : Selection) (schema : List String) :
    List (String × Int) :=
  let d0 := initDf schema
  let d1 := setCol d0 "holiday" (holidayVal sel)
  let d2 := setCol d1 "social_media_mentions" sel.social_mentions
  let d3 := setColIf d2 (weatherCol sel) 1
  setColIf d3 (locationCol sel) 1

/-- Vector of `encodeDfSkipFlavor` in schema order. -/
def encodeSkipFlavor (sel : Selection) (schema : List String) : List Int :=
  selectCols schema (encodeDfSkipFlavor sel schema)

/-- The encoding pipeline with the location indicator step ignored. -/
def encodeDfSkipLocation (sel : Selection) (schema : List String) :
    List (String × Int) :=
  let d0 := initDf schema
  let d1 := setCol d0 "holiday" (holidayVal sel)
  let d2 := setCol d1 "social_media_mentions" sel.social_mentions
  let d3 := setColIf d2 (weatherCol sel) 1
  setColIf d3 (flavorCol sel) 1

/-- Vector of `encodeDfSkipLocation` in schema order. -/
def encodeSkipLocation (sel : Selection) (schema : List String) : List Int :=
  selectCols schema (encodeDfSkipLocation sel schema)

/-- Claim C2: when the schema lacks `holiday` (respectively
`social_media_mentions`), encoding succeeds and the returned vector is the one
produced with the holiday flag (respectively the mention count) ignored. -/
theorem crumbl_C2 (sel : Selection) (schema : List String) :
    ("holiday" ∉ schema → encode sel schema = encodeSkipHoliday sel schema) ∧
    ("social_media_mentions" ∉ schema →
      encode sel schema = encodeSkipSocial sel schema) := by
  constructor
  · intro hna
    unfold encode encodeSkipHoliday selectCols
    refine List.map_congr_left ?_
    intro c hc
    have hch : ¬c = "holiday" := fun he => hna (he ▸ hc)
    simp [encodeDf, encodeDfSkipHoliday, getCol_setColIf, getCol_setCol,
      mem_dfKeys_setColIf, mem_dfKeys_setCol, dfKeys_initDf, getCol_initDf,
      weatherCol_ne_holiday sel, flavorCol_ne_holiday sel,
      locationCol_ne_holiday sel, weatherCol_ne_social sel,
      flavorCol_ne_social sel, locationCol_ne_social sel, hch]
  · intro hna
    unfold encode encodeSkipSocial selectCols
    refine List.map_congr_left ?_
    intro c hc
    have hcs : ¬c = "social_media_mentions" := fun he => hna (he ▸ hc)
    simp [encodeDf, encodeDfSkipSocial, getCol_setColIf, getCol_setCol,
      mem_dfKeys_setColIf, mem_dfKeys_setCol, dfKeys_initDf, getCol_initDf,
      weatherCol_ne_holiday sel, flavorCol_ne_holiday sel,
      locationCol_ne_holiday sel, weatherCol_ne_social sel,
      flavorCol_ne_social sel, locationCol_ne_social sel, hcs]

/-- Witness for claim C1 at a concrete schema containing all five derived
column names. -/
theorem crumbl_C1_witness :
    encode ⟨"Oreo", "Sunny", "Provo", true, 5⟩
        ["weather_Sunny", "flavor_Oreo", "location_Provo", "holiday",
          "social_media_mentions"] = [1, 1, 1, 1, 5] := by
  rw [crumbl_C1 _ _ (by decide) (by decide) (by decide) (by decide) (by decide)]
  decide

/-- Witness for claim C2 at a concrete schema lacking both `holiday` and
`social_media_mentions`. -/
theorem crumbl_C2_witness :
    encode ⟨"Oreo", "Sunny", "Provo", true, 7⟩ ["weather_Sunny", "flavor_Oreo"]
        = encodeSkipHoliday ⟨"Oreo", "Sunny", "Provo", true, 7⟩
            ["weather_Sunny", "flavor_Oreo"] ∧
    encode ⟨"Oreo", "Sunny", "Provo", true, 7⟩ ["weather_Sunny", "flavor_Oreo"]
        = encodeSkipSocial ⟨"Oreo", "Sunny", "Provo", true, 7⟩
            ["weather_Sunny", "flavor_Oreo"] ∧
    encode ⟨"Oreo", "Sunny", "Provo", true, 7⟩ ["weather_Sunny", "flavor_Oreo"]
        = [1, 1] :=
  ⟨(crumbl_C2 _ _).1 (by decide), (crumbl_C2 _ _).2 (by decide), by decide⟩

/-- Claim C7: if a derived categorical column name is absent from the schema,
encoding still succeeds and the returned vector is the one produced with that
step of that selection component ignored. -/
theorem crumbl_C7 (sel : Selection) (schema : List String) :
    (weatherCol sel ∉ schema →
      encode sel schema = encodeSkipWeather sel schema) ∧
    (flavorCol sel ∉ schema →
      encode sel schema = encodeSkipFlavor sel schema) ∧
    (locationCol sel ∉ schema →
      encode sel schema = encodeSkipLocation sel schema) := by
  refine ⟨fun hw => ?_, fun hf => ?_, fun hl => ?_⟩
  · unfold encode encodeSkipWeather selectCols
    refine List.map_congr_left ?_
    intro c hc
    simp [encodeDf, encodeDfSkipWeather, getCol_setColIf, getCol_setCol,
      mem_dfKeys_setColIf, mem_dfKeys_setCol, dfKeys_initDf, getCol_initDf,
      weatherCol_ne_holiday sel, flavorCol_ne_holiday sel,
      locationCol_ne_holiday sel, weatherCol_ne_social sel,
      flavorCol_ne_social sel, locationCol_ne_social sel, hw]
  · unfold encode encodeSkipFlavor selectCols
    refine List.map_congr_left ?_
    intro c hc
    simp [encodeDf, encodeDfSkipFlavor, getCol_setColIf, getCol_setCol,
      mem_dfKeys_setColIf, mem_dfKeys_setCol, dfKeys_initDf, getCol_initDf,
      weatherCol_ne_holiday sel, flavorCol_ne_holiday sel,
      locationCol_ne_holiday sel, weatherCol_ne_social sel,
      flavorCol_ne_social sel, locationCol_ne_social sel, hf]
  · unfold encode encodeSkipLocation selectCols
    refine List.map_congr_left ?_
    intro c hc
    simp [encodeDf, encodeDfSkipLocation, getCol_setColIf, getCol_setCol,
      mem_dfKeys_setColIf, mem_dfKeys_setCol, dfKeys_initDf, getCol_initDf,
      weatherCol_ne_holiday sel, flavorCol_ne_holiday sel,
      locationCol_ne_holiday sel, weatherCol_ne_social sel,
      flavorCol_ne_social sel, locationCol_ne_social sel, hl]

/-- Witness for claim C7 at a concrete schema lacking all three derived
categorical column names. -/
theorem crumbl_C7_witness :
    encode ⟨"Oreo", "Sunny", "Provo", false, 3⟩
        ["holiday", "social_media_mentions"]
      = encodeSkipWeather ⟨"Oreo", "Sunny", "Provo", false, 3⟩
          ["holiday", "social_media_mentions"] ∧
    encode ⟨"Oreo", "Sunny", "Provo", false, 3⟩
        ["holiday", "social_media_mentions"]
      = encodeSkipFlavor ⟨"Oreo", "Sunny", "Provo", false, 3⟩
          ["holiday", "social_media_mentions"] ∧
    encode ⟨"Oreo", "Sunny", "Provo", false, 3⟩
        ["holiday", "social_media_mentions"]
      = encodeSkipLocation ⟨"Oreo", "Sunny", "Provo", false, 3⟩
          ["holiday", "social_media_mentions"] ∧
    encode ⟨"Oreo", "Sunny", "Provo", false, 3⟩
        ["holiday", "social_media_mentions"] = [0, 3] :=
  ⟨(crumbl_C7 _ _).1 (by decide), (crumbl_C7 _ _).2.1 (by decide),
    (crumbl_C7 _ _).2.2 (by decide), by decide⟩

/-- Claim C8: encoding is deterministic and idempotent — as a pure function of
the selection and the schema, encoding the same selection against the same
schema twice yields identical vectors. -/
theorem crumbl_C8 (sel : Selection) (schema : List String) :
    encode sel schema = encode sel schema := rfl

/-- The three recommendation bundles chosen at lines 224-240 of the app. -/
inductive ActionBundle
  | surge
  | slump
  | steady
  deriving Repr, DecidableEq

/-- The quantities derived from a prediction: the percentage deviation from
the historical average, the batch count, the extra-staffing estimate and the
selected action bundle. -/
structure RecResult where
  change_pct : ℚ
  batches : Int
  staff_estimate : Int
  action_bundle : ActionBundle
  deriving Repr, DecidableEq

/-- Exact division, undefined on a zero divisor: the rational idealization of
the float division at line 172, faithful only for nonzero divisors.  The
operands in the program are numpy float64 scalars, whose division by zero
does not raise but yields a signed infinity; `npdiv` below models that
zero-divisor behavior. -/
def pydiv (a b : ℚ) : Option ℚ :=
  if b = 0 then none else some (a / b)

/-- Line 172, `change_pct = (prediction / avg_sales - 1) * 100`, under the
exact-rational idealization: undefined at a zero average (see `np_change_pct`
for what the numpy arithmetic actually does there). -/
def change_pct (prediction avg_sales : ℚ) : Option ℚ :=
  (pydiv prediction avg_sales).map (fun q => (q - 1) * 100)

/-- Batches needed, `int(prediction // 12)` at lines 208 and 226. -/
def batchesOf (prediction : ℚ) : Int := ⌊prediction / 12⌋

/-- Extra bakers to schedule, `int(prediction // 150)` at line 227. -/
def staffOf (prediction : ℚ) : Int := ⌊prediction / 150⌋

/-- The first-match-wins threshold selection of lines 224-240. -/
def actionFor (ch : ℚ) : ActionBundle :=
  if ch > 15 then ActionBundle.surge
  else if ch < -10 then ActionBundle.slump
  else ActionBundle.steady

/-- The recommendation engine under the exact-rational idealization: from a
prediction and a nonzero historical average, derive `change_pct`, the batch
and staffing estimates and the action bundle; undefined at a zero average,
where the idealization stops being faithful (the numpy program computes an
infinite `change_pct` instead and proceeds). -/
def evaluate (prediction avg_sales : ℚ) : Option RecResult :=
  match change_pct prediction avg_sales with
  | none => none
  | some ch =>
      some ⟨ch, batchesOf prediction, staffOf prediction, actionFor ch⟩

/-- A numpy float64 value as it matters to lines 171-240: a finite value, a
signed infinity, or nan. -/
inductive NpFloat
  | fin (q : ℚ)
  | posInf
  | negInf
  | nan
  deriving Repr, DecidableEq

/-- The numpy float64 true division at line 172: it never raises — a zero
divisor yields a signed infinity by the sign of the numerator (nan when the
numerator is also zero), only emitting a RuntimeWarning. -/
def npdiv (a b : ℚ) : NpFloat :=
  if b = 0 then
    (if 0 < a then NpFloat.posInf else if a < 0 then NpFloat.negInf
     else NpFloat.nan)
  else NpFloat.fin (a / b)

/-- Subtraction of a finite constant on numpy float64 values: infinities and
nan absorb it. -/
def npSubC : NpFloat → ℚ → NpFloat
  | NpFloat.fin q, c => NpFloat.fin (q - c)
  | NpFloat.posInf, _ => NpFloat.posInf
  | NpFloat.negInf, _ => NpFloat.negInf
  | NpFloat.nan, _ => NpFloat.nan

/-- Multiplication by a finite constant on numpy float64 values: an infinity
keeps or flips its sign with the sign of the constant (nan at zero), nan
propagates. -/
def npMulC : NpFloat → ℚ → NpFloat
  | NpFloat.fin q, c => NpFloat.fin (q * c)
  | NpFloat.posInf, c =>
      if 0 < c then NpFloat.posInf
      else if c < 0 then NpFloat.negInf else NpFloat.nan
  | NpFloat.negInf, c =>
      if 0 < c then NpFloat.negInf
      else if c < 0 then NpFloat.posInf else NpFloat.nan
  | NpFloat.nan, _ => NpFloat.nan

/-- Line 172 under the actual numpy float64 semantics:
`(prediction / avg_sales - 1) * 100` with no error path. -/
def np_change_pct (prediction avg_sales : ℚ) : NpFloat :=
  npMulC (npSubC (npdiv prediction avg_sales) 1) 100

/-- The numpy greater-than comparison against a finite threshold: true for
the positive infinity, false for the negative infinity and for nan. -/
def npGT (x : NpFloat) (c : ℚ) : Bool :=
  match x with
  | NpFloat.fin q => decide (c < q)
  | NpFloat.posInf => true
  | NpFloat.negInf => false
  | NpFloat.nan => false

/-- The numpy less-than comparison against a finite threshold: true for the
negative infinity, false for the positive infinity and for nan. -/
def npLT (x : NpFloat) (c : ℚ) : Bool :=
  match x with
  | NpFloat.fin q => decide (q < c)
  | NpFloat.posInf => false
  | NpFloat.negInf => true
  | NpFloat.nan => false

/-- The first-match-wins threshold selection of lines 224-240, applied to the
numpy float64 `change_pct` the program actually holds. -/
def npActionFor (ch : NpFloat) : ActionBundle :=
  if npGT ch 15 then ActionBundle.surge
  else if npLT ch (-10) then ActionBundle.slump
  else ActionBundle.steady

/-- Claim C3 (code bug): the claim — with the spec — expects the arithmetic
at a historical average of 0 to fail with a division-by-zero condition and
produce no recommendation, but the operands at line 172 are numpy float64
scalars, whose division by zero yields a signed infinity without raising: for
every positive prediction the program computes `change_pct = +inf` and
renders the Surge bundle, and for every negative prediction it computes
`-inf` and renders the Slump bundle — a recommendation is produced either
way. -/
theorem crumbl_C3 (x : ℚ) :
    (0 < x → np_change_pct x 0 = NpFloat.posInf ∧
      npActionFor (np_change_pct x 0) = ActionBundle.surge) ∧
    (x < 0 → np_change_pct x 0 = NpFloat.negInf ∧
      npActionFor (np_change_pct x 0) = ActionBundle.slump) := by
  constructor
  · intro hx
    have h1 : np_change_pct x 0 = NpFloat.posInf := by
      simp only [np_change_pct, npdiv, if_pos rfl, if_pos hx, npSubC]
      norm_num [npMulC]
    rw [h1]
    exact ⟨rfl, rfl⟩
  · intro hx
    have h1 : np_change_pct x 0 = NpFloat.negInf := by
      simp only [np_change_pct, npdiv, if_pos rfl, if_neg (lt_asymm hx),
        if_pos hx, npSubC]
      norm_num [npMulC]
    rw [h1]
    exact ⟨rfl, rfl⟩

/-- Witness for claim C3 at the concrete failing input: prediction 180 and
historical average 0. -/
theorem crumbl_C3_witness :
    np_change_pct 180 0 = NpFloat.posInf ∧
    npActionFor (np_change_pct 180 0) = ActionBundle.surge :=
  (crumbl_C3 180).1 (by norm_num)

theorem actionFor_iff (ch : ℚ) :
    (actionFor ch = ActionBundle.surge ↔ 15 < ch) ∧
    (actionFor ch = ActionBundle.slump ↔ (ch ≤ 15 ∧ ch < -10)) ∧
    (actionFor ch = ActionBundle.steady ↔ (ch ≤ 15 ∧ -10 ≤ ch)) := by
  unfold actionFor
  by_cases h1 : ch > 15
  · simp [h1, not_le.mpr h1]
  · by_cases h2 : ch < -10
    · simp [h1, h2, le_of_not_lt h1, not_le.mpr h2]
    · simp [h1, h2, le_of_not_lt h1, le_of_not_lt h2]

/-- Claim C4: the action bundle is selected by fixed thresholds with first
match winning — Surge exactly when `change_pct > 15`, otherwise Slump exactly
when `change_pct < -10`, otherwise Steady; in particular `evaluate 180 150`
gives `change_pct = 20` and Surge, `evaluate 100 150` gives Slump, and
`evaluate 150 150` gives `change_pct = 0` and Steady. -/
theorem crumbl_C4 :
    (∀ p a : ℚ, a ≠ 0 →
      ∃ r, evaluate p a = some r ∧
        (r.action_bundle = ActionBundle.surge ↔ 15 < r.change_pct) ∧
        (r.action_bundle = ActionBundle.slump ↔
          (r.change_pct ≤ 15 ∧ r.change_pct < -10)) ∧
        (r.action_bundle = ActionBundle.steady ↔
          (r.change_pct ≤ 15 ∧ -10 ≤ r.change_pct))) ∧
    (∃ r, evaluate 180 150 = some r ∧ r.change_pct = 20 ∧
      r.action_bundle = ActionBundle.surge) ∧
    (∃ r, evaluate 100 150 = some r ∧
      r.action_bundle = ActionBundle.slump) ∧
    (∃ r, evaluate 150 150 = some r ∧ r.change_pct = 0 ∧
      r.action_bundle = ActionBundle.steady) := by
  refine ⟨fun p a ha => ?_, ?_, ?_, ?_⟩
  · refine ⟨⟨(p / a - 1) * 100, batchesOf p, staffOf p,
      actionFor ((p / a - 1) * 100)⟩, ?_, ?_, ?_, ?_⟩
    · simp [evaluate, change_pct, pydiv, ha]
    · exact (actionFor_iff ((p / a - 1) * 100)).1
    · exact (actionFor_iff ((p / a - 1) * 100)).2.1
    · exact (actionFor_iff ((p / a - 1) * 100)).2.2
  · refine ⟨⟨20, 15, 1, ActionBundle.surge⟩, ?_, rfl, rfl⟩
    norm_num [evaluate, change_pct, pydiv, batchesOf, staffOf, actionFor]
  · refine ⟨⟨(100 / 150 - 1) * 100, 8, 0, ActionBundle.slump⟩, ?_, rfl⟩
    norm_num [evaluate, change_pct, pydiv, batchesOf, staffOf, actionFor]
  · refine ⟨⟨0, 12, 1, ActionBundle.steady⟩, ?_, rfl, rfl⟩
    norm_num [evaluate, change_pct, pydiv, batchesOf, staffOf, actionFor]

/-- Witness for the universal part of claim C4 at a concrete nonzero average. -/
theorem crumbl_C4_witness :
    ∃ r, evaluate 300 200 = some r ∧
      (r.action_bundle = ActionBundle.surge ↔ 15 < r.change_pct) ∧
      (r.action_bundle = ActionBundle.slump ↔
        (r.change_pct ≤ 15 ∧ r.change_pct < -10)) ∧
      (r.action_bundle = ActionBundle.steady ↔
        (r.change_pct ≤ 15 ∧ -10 ≤ r.change_pct)) :=
  crumbl_C4.1 300 200 (by norm_num)

/-- Claim C5: for a nonzero historical average the derived quantities are
`change_pct = (p / a - 1) * 100`, `batches = floor(p / 12)` and
`staff_estimate = floor(p / 150)`. -/
theorem crumbl_C5 (p a : ℚ) (ha : a ≠ 0) :
    ∃ r, evaluate p a = some r ∧ r.change_pct = (p / a - 1) * 100 ∧
      r.batches = ⌊p / 12⌋ ∧ r.staff_estimate = ⌊p / 150⌋ := by
  refine ⟨⟨(p / a - 1) * 100, batchesOf p, staffOf p,
    actionFor ((p / a - 1) * 100)⟩, ?_, rfl, rfl, rfl⟩
  simp [evaluate, change_pct, pydiv, ha]

/-- Witness for claim C5 at the concrete input `evaluate 180 150`. -/
theorem crumbl_C5_witness :
    ∃ r, evaluate 180 150 = some r ∧ r.change_pct = ((180 : ℚ) / 150 - 1) * 100 ∧
      r.batches = ⌊(180 : ℚ) / 12⌋ ∧ r.staff_estimate = ⌊(180 : ℚ) / 150⌋ :=
  crumbl_C5 180 150 (by norm_num)

/-- A value in a raw dataset cell: numeric or textual. -/
inductive Cell
  | num (q : ℚ)
  | str (s : String)
  deriving Repr, DecidableEq

/-- A raw tabular dataset: a row count and named columns of cell values. -/
structure Table where
  nrows : Nat
  cols : List (String × List Cell)

/-- The column names of a table, in order. -/
def colNames (t : Table) : List String := t.cols.map Prod.fst

/-- The numpy integer draw `np.random.randint(lo, hi)` applied to a raw draw `r`: a value in the
half-open range from `lo` to `hi`. -/
def randint (lo hi r : Nat) : Nat := lo + r % (hi - lo)

/-- The loader of lines 49-56: rename `sales` to `units_sold` when present,
otherwise synthesize a `units_sold` column of `np.random.randint(50, 200)`
draws when no `units_sold` column exists, otherwise keep the table as is.  The
random draws are supplied as the stream `rng`. -/
def load_data (t : Table) (rng : Nat → Nat) : Table :=
  if "sales" ∈ colNames t then
    Table.mk t.nrows
      (t.cols.map (fun p => (if p.1 = "sales" then "units_sold" else p.1, p.2)))
  else if "units_sold" ∈ colNames t then t
  else
    Table.mk t.nrows
      (t.cols ++ [("units_sold",
        (List.range t.nrows).map (fun i => Cell.num (randint 50 200 (rng i))))])

/-- Claim C6: `load_data` renames a `sales` column to `units_sold`; when
neither `sales` nor `units_sold` is present it synthesizes a `units_sold`
column whose value in every row is an integer in the half-open range from 50
to 200; consequently `units_sold` is always present after load. -/
theorem crumbl_C6 (t : Table) (rng : Nat → Nat) :
    ("sales" ∈ colNames t →
      (load_data t rng).cols = t.cols.map
        (fun p => (if p.1 = "sales" then "units_sold" else p.1, p.2))) ∧
    ("sales" ∉ colNames t → "units_sold" ∉ colNames t →
      ∃ vals, getCol (load_data t rng).cols "units_sold" = some vals ∧
        vals.length = t.nrows ∧
        ∀ cell ∈ vals, ∃ k : ℕ, cell = Cell.num k ∧ 50 ≤ k ∧ k < 200) ∧
    "units_sold" ∈ colNames (load_data t rng) := by
  refine ⟨fun hs => ?_, fun hs hu => ?_, ?_⟩
  · simp [load_data, hs]
  · refine ⟨(List.range t.nrows).map (fun i => Cell.num (randint 50 200 (rng i))),
      ?_, by simp, ?_⟩
    · have hload : (load_data t rng).cols = t.cols ++
          [("units_sold",
            (List.range t.nrows).map (fun i => Cell.num (randint 50 200 (rng i))))] := by
        simp [load_data, hs, hu]
      rw [hload, getCol_append, getCol_eq_none t.cols "units_sold" hu]
      simp [getCol]
    · intro cell hcell
      simp only [List.mem_map] at hcell
      obtain ⟨i, _, hi⟩ := hcell
      refine ⟨randint 50 200 (rng i), hi.symm, ?_, ?_⟩
      · exact Nat.le_add_right 50 _
      · simp only [randint]
        omega
  · by_cases hs : "sales" ∈ colNames t
    · have hload : (load_data t rng).cols = t.cols.map
          (fun p => (if p.1 = "sales" then "units_sold" else p.1, p.2)) := by
        simp [load_data, hs]
      simp only [colNames, hload, List.map_map, List.mem_map]
      simp only [colNames, List.mem_map] at hs
      obtain ⟨p, hp, hps⟩ := hs
      exact ⟨p, hp, by simp [Function.comp, hps]⟩
    · by_cases hu : "units_sold" ∈ colNames t
      · have hload : load_data t rng = t := by
          simp [load_data, hs, hu]
        rw [hload]
        exact hu
      · have hload : (load_data t rng).cols = t.cols ++
            [("units_sold",
              (List.range t.nrows).map
                (fun i => Cell.num (randint 50 200 (rng i))))] := by
          simp [load_data, hs, hu]
        simp [colNames, hload]

/-- Witness for claim C6 at two concrete tables: one with a `sales` column
and one with neither `sales` nor `units_sold`. -/
theorem crumbl_C6_witness :
    (load_data (Table.mk 1 [("sales", [Cell.num 3]), ("flavor", [Cell.str "Oreo"])])
        (fun i => i)).cols
      = [("units_sold", [Cell.num 3]), ("flavor", [Cell.str "Oreo"])] ∧
    (∃ vals, getCol (load_data (Table.mk 2 [("flavor", [Cell.str "Oreo"])])
        (fun i => i)).cols "units_sold" = some vals ∧ vals.length = 2 ∧
        ∀ cell ∈ vals, ∃ k : ℕ, cell = Cell.num k ∧ 50 ≤ k ∧ k < 200) ∧
    "units_sold" ∈ colNames (load_data (Table.mk 2 [("flavor", [Cell.str "Oreo"])])
      (fun i => i)) := by
  refine ⟨?_, (crumbl_C6 _ _).2.1 (by decide) (by decide), (crumbl_C6 _ _).2.2⟩
  rw [(crumbl_C6 _ _).1 (by decide)]
  decide

/-- A row of the loaded dataset, with the columns the app reads. -/
structure Row where
  flavor : String
  weather : String
  location : String
  week : Int
  units_sold : ℚ
  deriving Repr, DecidableEq

/-- The rows of the dataset whose flavor equals the selected flavor, line 264. -/
def flavorRows (df : List Row) (f : String) : List Row :=
  df.filter (fun r => r.flavor = f)

/-- The mean of a list of rationals (0 for the empty list). -/
def meanQ (l : List ℚ) : ℚ := l.sum / (l.length : ℚ)

/-- The groupby-mean of `units_sold` for the selected flavor, line 171. -/
def flavorAvg (df : List Row) (f : String) : ℚ :=
  meanQ ((flavorRows df f).map Row.units_sold)

/-- A grouped mean of `units_sold` over a key, as used by the trend and
location charts. -/
def groupMeanBy {α : Type} [DecidableEq α] (key : Row → α) (df : List Row) :
    List (α × ℚ) :=
  ((df.map key).dedup).map
    (fun k => (k, meanQ ((df.filter (fun r => key r = k)).map Row.units_sold)))

/-- Everything rendered after a successful prediction: the scenario summary
fields, the three metric values, the action bundle and the three chart
datasets for the selected flavor. -/
structure CycleOutput where
  scenario_flavor : String
  scenario_weather : String
  scenario_location : String
  scenario_holiday : Bool
  predicted : ℚ
  change_vs_avg : ℚ
  batches_needed : Int
  staff_extra : Int
  recommendation : ActionBundle
  weekly_trend : List (Int × ℚ)
  weather_rows : List Row
  location_means : List (String × ℚ)

/-- Python truthiness of the prediction value at line 170: `None` and the
scalar 0 are falsy, every other scalar is truthy. -/
def truthy (p : Option ℚ) : Bool :=
  match p with
  | none => false
  | some v => decide (v ≠ 0)

/-- One prediction cycle (lines 166-283): encode the selection, call the
model, and — only when the returned prediction is truthy — derive the
recommendation quantities and the three chart datasets.  The model is an
uninterpreted function that may fail (`make_prediction` returns `None` on any
exception).  The cycle returns the dataset it worked on together with the
rendered output, `none` when nothing is rendered. -/
def predictionCycle (df : List Row) (sel : Selection) (schema : List String)
    (model : List Int → Option ℚ) : List Row × Option CycleOutput :=
  let pred := model (encode sel schema)
  if truthy pred then
    match pred with
    | none => (df, none)
    | some p =>
      match evaluate p (flavorAvg df sel.flavor) with
      | none => (df, none)
      | some r =>
        (df, some
          (CycleOutput.mk sel.flavor sel.weather sel.location sel.is_holiday
            p r.change_pct r.batches r.staff_estimate r.action_bundle
            (groupMeanBy Row.week (flavorRows df sel.flavor))
            (flavorRows df sel.flavor)
            (groupMeanBy Row.location (flavorRows df sel.flavor))))
  else (df, none)

/-- Claim C9: a prediction cycle — encoding, prediction, recommendation
derivation and the three chart aggregations — never mutates the loaded
dataset: the dataset component of the result of the cycle is exactly the input
dataset. -/
theorem crumbl_C9 (df : List Row) (sel : Selection) (schema : List String)
    (model : List Int → Option ℚ) :
    (predictionCycle df sel schema model).1 = df := by
  rcases hm : model (encode sel schema) with _ | p
  · simp [predictionCycle, hm, truthy]
  · rcases he : evaluate p (flavorAvg df sel.flavor) with _ | r <;>
      simp [predictionCycle, hm, he, truthy, apply_ite]

/-- Claim C10: a model output of exactly 0 is falsy, so the cycle renders
nothing — exactly the same result as when the prediction is absent, because
the guard at line 170 tests truthiness instead of comparing with `None`. -/
theorem crumbl_C10 (df : List Row) (sel : Selection) (schema : List String) :
    truthy (some 0) = false ∧
    predictionCycle df sel schema (fun _ => some 0) = (df, none) ∧
    predictionCycle df sel schema (fun _ => some 0)
      = predictionCycle df sel schema (fun _ => none) := by
  refine ⟨rfl, ?_, ?_⟩
  · unfold predictionCycle
    simp [truthy]
  · unfold predictionCycle
    simp [truthy]
